import Mathlib

/-!
Air-quality logger (ESP8266, DHT11, NETPIE MQTT): sampling and delivery loop.

Shallow embedding of `src/main.cpp`: the globals `batch_data`, `temperature_old`
and `humidity_old` become a `State`; every call into a library (NTP client, DHT
driver, MQTT client, GPIO, `delay`) becomes an `Event` of an I/O trace, the value
the library returned being supplied per tick by a `TickEnv`.

* `float` is the IEEE-754 binary32 bit pattern; only `isnan` and `!=` are used by
  the program, and both are defined on the bits.
* `unsigned long` is 32 bits wide on the ESP8266; subtraction is taken modulo `2^32`.
* A `JsonDocument` is kept as the tree the program builds, not as its serialised text.
* `PRINT(...)` expands to nothing unless `DEBUG` is defined and is left out.
-/

namespace AirQuality

/-! ## Machine values -/

/-- IEEE-754 binary32 value, given by its bit pattern (sign, 8 exponent bits, 23 fraction bits). -/
structure F32 where
  bits : Nat
deriving DecidableEq

/-- The macro `isnan(x)`: exponent field all ones and a non-zero fraction. -/
def isnan (x : F32) : Bool :=
  (x.bits / 8388608) % 256 == 255 && x.bits % 8388608 != 0

/-- The operator `a != b` on `float`: true when either side is not-a-number, false for
equal bit patterns and for two zeros of any sign, true otherwise. -/
def F32.ne (a b : F32) : Bool :=
  isnan a || isnan b ||
    !(a.bits == b.bits || (a.bits % 2147483648 == 0 && b.bits % 2147483648 == 0))

/-- The literal `0.0F`. -/
def F32.zero : F32 := ⟨0⟩

/-- Width of `unsigned long` on the target: values are taken modulo `2^32`. -/
def ULONG_MOD : Nat := 4294967296

/-- The expression `a - b` on `unsigned long`. -/
def ulong_sub (a b : Nat) : Nat :=
  (a % ULONG_MOD + ULONG_MOD - b % ULONG_MOD) % ULONG_MOD

/-- The constant `LOOP_INTERVAL` (1000UL). -/
def LOOP_INTERVAL : Nat := 1000

/-! ## Data model -/

/-- One element of `batch_data`: the tuple `{ epoch_time, temperature, humidity, heat_index }`. -/
structure Reading where
  epoch_time : Nat
  temperature : F32
  humidity : F32
  heat_index : F32
deriving DecidableEq

/-- The object stored under the key `"data"`: keys `time`, `temp`, `humid`, `index`. -/
structure JsonData where
  time : Nat
  temp : F32
  humid : F32
  index : F32
deriving DecidableEq

/-- One element of the `"batch"` array: `{ "data": {...}, "ts": ... }`. -/
structure JsonBatchEntry where
  data : JsonData
  ts : Nat
deriving DecidableEq

/-- The two documents the program builds: `{ "data": {...} }` and `{ "batch": [...] }`. -/
inductive JsonDocument where
  | data (d : JsonData)
  | batch (entries : List JsonBatchEntry)
deriving DecidableEq

/-- The two topics `MQTT_PUBLISH` and `MQTT_PUBLISH_BATCH`. -/
inductive Topic where
  | MQTT_PUBLISH
  | MQTT_PUBLISH_BATCH
deriving DecidableEq

/-- The two levels written to `LED_BUILTIN`. -/
inductive Led where
  | LED_HIGH
  | LED_LOW
deriving DecidableEq

/-- One call into a library, with the value it returned. -/
inductive Event where
  | NTP_update
  | NTP_getEpochTime (ret : Nat)
  | dht_readTemperature (ret : F32)
  | dht_readHumidity (ret : F32)
  | dht_computeHeatIndex (ret : F32)
  | digitalWrite (level : Led)
  | delay (ms : Nat)
  | mqtt_connected (ret : Bool)
  | mqtt_connect (ret : Bool)
  | mqtt_publish (topic : Topic) (payload : JsonDocument) (ret : Bool)
deriving DecidableEq

/-- The globals written by `loop` and `batch_re_publish`. -/
structure State where
  batch_data : List Reading
  temperature_old : F32
  humidity_old : F32
deriving DecidableEq

/-- What the libraries return during one call of `loop`, in call order. A value is
consulted only if the program reaches the call. -/
structure TickEnv where
  epoch_time : Nat
  temperature : F32
  humidity : F32
  heat_index : F32
  connected : Bool
  connect : Bool
  publish : Bool
  batch_epoch_time : Nat
  batch_connected : Bool
  batch_connect : Bool
  batch_publish : Bool
deriving DecidableEq

/-- The globals as initialised at lines 46, 54 and 55. -/
def State.init : State := ⟨[], F32.zero, F32.zero⟩

/-! ## The program -/

/-- The function `mqtt_connect()` (lines 164-173); `ret` is what `mqtt.connect` returned. -/
def mqtt_connect (ret : Bool) : List Event :=
  if ret then
    [Event.mqtt_connect true]
  else
    [Event.mqtt_connect false, Event.digitalWrite Led.LED_HIGH, Event.delay LOOP_INTERVAL,
      Event.digitalWrite Led.LED_LOW]

/-- The body of the range-for at lines 184-194: one array element per tuple. -/
def batch_entry (epoch_time : Nat) (it : Reading) : JsonBatchEntry :=
  { data := { time := it.epoch_time, temp := it.temperature, humid := it.humidity,
              index := it.heat_index },
    ts := ulong_sub epoch_time it.epoch_time }

/-- The function `batch_re_publish()` (lines 175-207). -/
def batch_re_publish (s : State) (e : TickEnv) : State × List Event :=
  if s.batch_data.isEmpty then
    (s, [])
  else
    let epoch_time := e.batch_epoch_time
    let doc := JsonDocument.batch (s.batch_data.map (batch_entry epoch_time))
    let ev :=
      [Event.NTP_getEpochTime epoch_time, Event.mqtt_connected e.batch_connected]
        ++ (if !e.batch_connected then mqtt_connect e.batch_connect else [])
        ++ [Event.mqtt_publish Topic.MQTT_PUBLISH_BATCH doc e.batch_publish]
    if e.batch_publish then
      ({ s with batch_data := [] }, ev)
    else
      (s, ev)

/-- Lines 110-157 of `loop()`: everything before the call of `batch_re_publish`.
The third component is `true` when the function has executed `return` (line 124). -/
def loop_pipeline (s : State) (e : TickEnv) : State × List Event × Bool :=
  let ev0 :=
    [Event.NTP_update, Event.NTP_getEpochTime e.epoch_time,
      Event.dht_readTemperature e.temperature, Event.dht_readHumidity e.humidity]
  if isnan e.temperature || isnan e.humidity then
    (s, ev0 ++ [Event.delay 1000, Event.digitalWrite Led.LED_LOW, Event.delay 1000], true)
  else if F32.ne e.temperature s.temperature_old || F32.ne e.humidity s.humidity_old then
    let s1 := { s with temperature_old := e.temperature, humidity_old := e.humidity }
    let doc := JsonDocument.data
      { time := e.epoch_time, temp := e.temperature, humid := e.humidity, index := e.heat_index }
    let ev1 :=
      ev0 ++ [Event.digitalWrite Led.LED_HIGH, Event.dht_computeHeatIndex e.heat_index,
              Event.mqtt_connected e.connected]
        ++ (if !e.connected then mqtt_connect e.connect else [])
        ++ [Event.mqtt_publish Topic.MQTT_PUBLISH doc e.publish]
    let s2 :=
      if e.publish then s1
      else { s1 with batch_data := s1.batch_data ++
              [{ epoch_time := e.epoch_time, temperature := e.temperature,
                 humidity := e.humidity, heat_index := e.heat_index }] }
    (s2, ev1 ++ [Event.delay 100, Event.digitalWrite Led.LED_LOW], false)
  else
    (s, ev0, false)

/-- The function `loop()` (lines 109-162). -/
def loop (s : State) (e : TickEnv) : State × List Event :=
  let p := loop_pipeline s e
  if p.2.2 then
    (p.1, p.2.1)
  else
    let b := batch_re_publish p.1 e
    (b.1, p.2.1 ++ b.2 ++ [Event.delay LOOP_INTERVAL])

/-- The globals after `loop()` has been called once per element of `envs`. -/
def runState (s : State) : List TickEnv → State
  | [] => s
  | e :: es => runState (loop s e).1 es

/-- The I/O trace of calling `loop()` once per element of `envs`. -/
def runTrace (s : State) : List TickEnv → List Event
  | [] => []
  | e :: es => (loop s e).2 ++ runTrace (loop s e).1 es

/-! ## Observations on an I/O trace -/

/-- The document of a publish attempt on `MQTT_PUBLISH`, if the event is one. -/
def asSingle : Event → Option JsonData
  | Event.mqtt_publish Topic.MQTT_PUBLISH (JsonDocument.data d) _ => some d
  | _ => none

/-- The array of a publish attempt on `MQTT_PUBLISH_BATCH`, if the event is one. -/
def asBatch : Event → Option (List JsonBatchEntry)
  | Event.mqtt_publish Topic.MQTT_PUBLISH_BATCH (JsonDocument.batch b) _ => some b
  | _ => none

/-- The array of a publish on `MQTT_PUBLISH_BATCH` that returned `true`. -/
def asBatchOk : Event → Option (List JsonBatchEntry)
  | Event.mqtt_publish Topic.MQTT_PUBLISH_BATCH (JsonDocument.batch b) true => some b
  | _ => none

/-- The tuple carried by a `"data"` object. -/
def JsonData.toReading (d : JsonData) : Reading :=
  { epoch_time := d.time, temperature := d.temp, humidity := d.humid, heat_index := d.index }

/-- The `"data"` object built from a tuple. -/
def Reading.toData (r : Reading) : JsonData :=
  { time := r.epoch_time, temp := r.temperature, humid := r.humidity, index := r.heat_index }

/-- The reading of a publish on `MQTT_PUBLISH` that returned `false`. -/
def asFailedSingle : Event → Option Reading
  | Event.mqtt_publish Topic.MQTT_PUBLISH (JsonDocument.data d) false => some d.toReading
  | _ => none

/-- The result of a call of `mqtt.connect`, if the event is one. -/
def asConnect : Event → Option Bool
  | Event.mqtt_connect r => some r
  | _ => none

/-- The value of a call of `NTP.getEpochTime`, if the event is one. -/
def asClockRead : Event → Option Nat
  | Event.NTP_getEpochTime t => some t
  | _ => none

/-- Documents of all publish attempts on `MQTT_PUBLISH`, in order. -/
def single_docs (tr : List Event) : List JsonData := tr.filterMap asSingle

/-- Arrays of all publish attempts on `MQTT_PUBLISH_BATCH`, in order. -/
def batch_docs (tr : List Event) : List (List JsonBatchEntry) := tr.filterMap asBatch

/-- Arrays of the publishes on `MQTT_PUBLISH_BATCH` that returned `true`. -/
def batch_ok_docs (tr : List Event) : List (List JsonBatchEntry) := tr.filterMap asBatchOk

/-- Readings whose publish on `MQTT_PUBLISH` returned `false`, in order. -/
def failed_singles (tr : List Event) : List Reading := tr.filterMap asFailedSingle

/-- Results of all calls of `mqtt.connect`, in order. -/
def connect_calls (tr : List Event) : List Bool := tr.filterMap asConnect

/-- Values of all calls of `NTP.getEpochTime`, in order. -/
def clock_reads (tr : List Event) : List Nat := tr.filterMap asClockRead

/-- The sample (temperature, humidity) of the most recent publish attempt on
`MQTT_PUBLISH` in the trace; `d` when there is none. -/
def lastProduced (d : F32 × F32) (tr : List Event) : F32 × F32 :=
  match (single_docs tr).getLast? with
  | some x => (x.temp, x.humid)
  | none => d

/-- The sample (temperature, humidity) read in a tick. -/
def sampleOf (e : TickEnv) : F32 × F32 := (e.temperature, e.humidity)

/-- The test of line 127 between two samples: temperature or humidity differs. -/
def differs (a b : F32 × F32) : Bool := F32.ne a.1 b.1 || F32.ne a.2 b.2

/-- Number of samples of the list that differ from the sample before them, `prev` being
the sample before the first. -/
def changesFrom (prev : F32 × F32) : List (F32 × F32) → Nat
  | [] => 0
  | x :: t => (if differs x prev then 1 else 0) + changesFrom x t

/-- The call events of the MQTT client, the others dropped. -/
def mqtt_calls (tr : List Event) : List Event :=
  tr.filter (fun ev => match ev with
    | Event.mqtt_connected _ => true
    | Event.mqtt_connect _ => true
    | Event.mqtt_publish _ _ _ => true
    | _ => false)

/-- The topic and result of a call of `mqtt.publish`, if the event is one. -/
def asPublish : Event → Option (Topic × Bool)
  | Event.mqtt_publish t _ r => some (t, r)
  | _ => none

/-- Topic and result of every call of `mqtt.publish`, in order. -/
def publish_calls (tr : List Event) : List (Topic × Bool) := tr.filterMap asPublish

/-- A tick in which `isnan(temperature) || isnan(humidity)` holds. -/
def sensorFailed (e : TickEnv) : Prop := isnan e.temperature = true ∨ isnan e.humidity = true

instance (e : TickEnv) : Decidable (sensorFailed e) :=
  inferInstanceAs (Decidable (isnan e.temperature = true ∨ isnan e.humidity = true))

/-- The test of line 127 against the stored sample. -/
def changed (s : State) (e : TickEnv) : Bool :=
  F32.ne e.temperature s.temperature_old || F32.ne e.humidity s.humidity_old

/-- The retry buffer as the specification words it, one event at a time: a reading enters
when its own publish on `MQTT_PUBLISH` returned `false`, and leaves when a publish on
`MQTT_PUBLISH_BATCH` that carried it returned `true`. -/
def retryBufferStep (buf : List Reading) (ev : Event) : List Reading :=
  match ev with
  | Event.mqtt_publish Topic.MQTT_PUBLISH (JsonDocument.data d) false => buf ++ [d.toReading]
  | Event.mqtt_publish Topic.MQTT_PUBLISH_BATCH (JsonDocument.batch b) true =>
      buf.filter (fun r => !(b.map (fun x => x.data)).contains r.toData)
  | _ => buf

/-- The retry buffer the specification prescribes after a trace, starting from `buf`. -/
def retryBufferSpec (buf : List Reading) (tr : List Event) : List Reading :=
  tr.foldl retryBufferStep buf

/-- The number of publishes on `MQTT_PUBLISH` as the specification counts them in its
all-publishes-succeed scenario: one for the first sample, plus one for every later sample
that differs from the sample before it. -/
def claimedSingles : List (F32 × F32) → Nat
  | [] => 0
  | x :: t => 1 + changesFrom x t

/-- A tick whose two sensor reads are both numbers. -/
def validSample (e : TickEnv) : Prop := isnan e.temperature = false ∧ isnan e.humidity = false

instance (e : TickEnv) : Decidable (validSample e) :=
  inferInstanceAs (Decidable (isnan e.temperature = false ∧ isnan e.humidity = false))

/-- The reading built at line 150 from the values of one tick. -/
def TickEnv.reading (e : TickEnv) : Reading :=
  { epoch_time := e.epoch_time, temperature := e.temperature, humidity := e.humidity,
    heat_index := e.heat_index }

/-! ## Concrete values and ticks -/

/-- The value 20.0 as binary32. -/
def f20 : F32 := ⟨0x41A00000⟩

/-- The value 21.0 as binary32. -/
def f21 : F32 := ⟨0x41A80000⟩

/-- The value 50.0 as binary32. -/
def f50 : F32 := ⟨0x42480000⟩

/-- A heat index near 19.36 as binary32. -/
def f19 : F32 := ⟨0x419AE148⟩

/-- A quiet not-a-number as binary32. -/
def fNaN : F32 := ⟨0x7FC00000⟩

/-- A tick at clock value `t` during which the broker is reachable. -/
def tickUp (t : Nat) (temp humid index : F32) : TickEnv :=
  ⟨t, temp, humid, index, true, true, true, t, true, true, true⟩

/-- A tick at clock value `t` during which the broker is unreachable. -/
def tickDown (t : Nat) (temp humid index : F32) : TickEnv :=
  ⟨t, temp, humid, index, false, false, false, t, false, false, false⟩

/-- The state after one tick at clock 100 whose reading (20.0, 50.0) could not be published. -/
def oneBuffered : State := runState State.init [tickDown 100 f20 f50 f19]

/-! ## Basic facts about the program -/

theorem mqtt_connect_single_docs (r : Bool) :
    List.filterMap asSingle (mqtt_connect r) = [] := by
  cases r <;> rfl

theorem mqtt_connect_batch_docs (r : Bool) :
    List.filterMap asBatch (mqtt_connect r) = [] := by
  cases r <;> rfl

theorem mqtt_connect_batch_ok_docs (r : Bool) :
    List.filterMap asBatchOk (mqtt_connect r) = [] := by
  cases r <;> rfl

theorem mqtt_connect_failed_singles (r : Bool) :
    List.filterMap asFailedSingle (mqtt_connect r) = [] := by
  cases r <;> rfl

theorem mqtt_connect_connect_calls (r : Bool) :
    List.filterMap asConnect (mqtt_connect r) = [r] := by
  cases r <;> rfl

theorem mqtt_connect_clock_reads (r : Bool) :
    List.filterMap asClockRead (mqtt_connect r) = [] := by
  cases r <;> rfl

theorem single_docs_append (a b : List Event) :
    single_docs (a ++ b) = single_docs a ++ single_docs b := by
  simp [single_docs]

theorem batch_docs_append (a b : List Event) :
    batch_docs (a ++ b) = batch_docs a ++ batch_docs b := by
  simp [batch_docs]

theorem batch_ok_docs_append (a b : List Event) :
    batch_ok_docs (a ++ b) = batch_ok_docs a ++ batch_ok_docs b := by
  simp [batch_ok_docs]

theorem failed_singles_append (a b : List Event) :
    failed_singles (a ++ b) = failed_singles a ++ failed_singles b := by
  simp [failed_singles]

theorem connect_calls_append (a b : List Event) :
    connect_calls (a ++ b) = connect_calls a ++ connect_calls b := by
  simp [connect_calls]

theorem clock_reads_append (a b : List Event) :
    clock_reads (a ++ b) = clock_reads a ++ clock_reads b := by
  simp [clock_reads]

theorem publish_calls_append (a b : List Event) :
    publish_calls (a ++ b) = publish_calls a ++ publish_calls b := by
  simp [publish_calls]

theorem mqtt_connect_publish_calls (r : Bool) :
    List.filterMap asPublish (mqtt_connect r) = [] := by
  cases r <;> rfl

theorem lastProduced_of_nil (d : F32 × F32) (tr : List Event) (h : single_docs tr = []) :
    lastProduced d tr = d := by
  simp [lastProduced, h]

theorem lastProduced_of_singleton (d : F32 × F32) (tr : List Event) (x : JsonData)
    (h : single_docs tr = [x]) : lastProduced d tr = (x.temp, x.humid) := by
  simp [lastProduced, h]

theorem lastProduced_append (d : F32 × F32) (a b : List Event) :
    lastProduced d (a ++ b) = lastProduced (lastProduced d a) b := by
  unfold lastProduced
  rw [single_docs_append, List.getLast?_append]
  cases (single_docs b).getLast? <;> simp

theorem runState_append (s : State) (a b : List TickEnv) :
    runState s (a ++ b) = runState (runState s a) b := by
  induction a generalizing s with
  | nil => rfl
  | cons e es ih => simp [runState, ih]

theorem runTrace_append (s : State) (a b : List TickEnv) :
    runTrace s (a ++ b) = runTrace s a ++ runTrace (runState s a) b := by
  induction a generalizing s with
  | nil => rfl
  | cons e es ih => simp [runState, runTrace, ih]

/-- The pipeline executes `return` exactly when a sensor read is not a number. -/
theorem loop_pipeline_returned (s : State) (e : TickEnv) :
    (loop_pipeline s e).2.2 = (isnan e.temperature || isnan e.humidity) := by
  unfold loop_pipeline
  split_ifs <;> simp_all

/-- A tick whose sensor read is not a number: `loop` returns at line 124. -/
theorem loop_nan (s : State) (e : TickEnv) (h : (isnan e.temperature || isnan e.humidity) = true) :
    loop s e = (s, [Event.NTP_update, Event.NTP_getEpochTime e.epoch_time,
      Event.dht_readTemperature e.temperature, Event.dht_readHumidity e.humidity,
      Event.delay 1000, Event.digitalWrite Led.LED_LOW, Event.delay 1000]) := by
  simp [loop, loop_pipeline, h]

/-- A tick with a valid sample: `loop` runs the pipeline, then `batch_re_publish`, then the delay. -/
theorem loop_valid (s : State) (e : TickEnv) (h : validSample e) :
    loop s e = ((batch_re_publish (loop_pipeline s e).1 e).1,
      (loop_pipeline s e).2.1 ++ (batch_re_publish (loop_pipeline s e).1 e).2
        ++ [Event.delay LOOP_INTERVAL]) := by
  obtain ⟨h1, h2⟩ := h
  have hflag : (loop_pipeline s e).2.2 = false := by
    rw [loop_pipeline_returned, h1, h2]; rfl
  simp [loop, hflag]

/-- The pipeline on a valid sample that `!=` does not tell from the stored one. -/
theorem loop_pipeline_same (s : State) (e : TickEnv) (h : validSample e)
    (hs : (F32.ne e.temperature s.temperature_old || F32.ne e.humidity s.humidity_old) = false) :
    loop_pipeline s e = (s, [Event.NTP_update, Event.NTP_getEpochTime e.epoch_time,
      Event.dht_readTemperature e.temperature, Event.dht_readHumidity e.humidity], false) := by
  obtain ⟨h1, h2⟩ := h
  simp only [loop_pipeline, h1, h2, hs]
  simp

/-- The pipeline on a valid sample that differs from the stored one. -/
theorem loop_pipeline_changed (s : State) (e : TickEnv) (h : validSample e)
    (hs : (F32.ne e.temperature s.temperature_old || F32.ne e.humidity s.humidity_old) = true) :
    loop_pipeline s e =
      ({ batch_data := if e.publish then s.batch_data else s.batch_data ++ [e.reading],
         temperature_old := e.temperature, humidity_old := e.humidity },
       [Event.NTP_update, Event.NTP_getEpochTime e.epoch_time,
        Event.dht_readTemperature e.temperature, Event.dht_readHumidity e.humidity,
        Event.digitalWrite Led.LED_HIGH, Event.dht_computeHeatIndex e.heat_index,
        Event.mqtt_connected e.connected]
        ++ (if e.connected then [] else mqtt_connect e.connect)
        ++ [Event.mqtt_publish Topic.MQTT_PUBLISH (JsonDocument.data e.reading.toData) e.publish,
            Event.delay 100, Event.digitalWrite Led.LED_LOW],
       false) := by
  obtain ⟨h1, h2⟩ := h
  simp only [loop_pipeline, h1, h2, hs]
  cases e.publish <;> cases e.connected <;> simp [TickEnv.reading, Reading.toData]

/-- The function `batch_re_publish` on a non-empty buffer. -/
theorem batch_re_publish_nonempty (s : State) (e : TickEnv) (h : s.batch_data ≠ []) :
    batch_re_publish s e =
      ({ s with batch_data := if e.batch_publish then [] else s.batch_data },
       [Event.NTP_getEpochTime e.batch_epoch_time, Event.mqtt_connected e.batch_connected]
        ++ (if e.batch_connected then [] else mqtt_connect e.batch_connect)
        ++ [Event.mqtt_publish Topic.MQTT_PUBLISH_BATCH
              (JsonDocument.batch (s.batch_data.map (batch_entry e.batch_epoch_time)))
              e.batch_publish]) := by
  have h2 : s.batch_data.isEmpty = false := by
    cases hb : s.batch_data with
    | nil => exact absurd hb h
    | cons a l => rfl
  simp only [batch_re_publish, h2]
  cases e.batch_publish <;> cases e.batch_connected <;> simp

/-- The function `batch_re_publish` on an empty buffer does nothing. -/
theorem batch_re_publish_empty (s : State) (e : TickEnv) (h : s.batch_data = []) :
    batch_re_publish s e = (s, []) := by
  simp [batch_re_publish, h]

theorem ulong_sub_exact (a b : Nat) (hb : b ≤ a) (ha : a < ULONG_MOD) : ulong_sub a b = a - b := by
  unfold ulong_sub ULONG_MOD at *
  omega

theorem ulong_sub_wrap (t d : Nat) (hd : 0 < d) (hdt : d ≤ t) (ht : t < ULONG_MOD) :
    ulong_sub (t - d) t = ULONG_MOD - d := by
  unfold ulong_sub ULONG_MOD at *
  omega

theorem sensorFailed_iff (e : TickEnv) :
    sensorFailed e ↔ (isnan e.temperature || isnan e.humidity) = true := by
  simp [sensorFailed]

theorem runState_sensorFailed (s : State) (fails : List TickEnv)
    (h : ∀ f ∈ fails, sensorFailed f) : runState s fails = s := by
  induction fails generalizing s with
  | nil => rfl
  | cons f fs ih =>
    have hf : sensorFailed f := h f (List.mem_cons_self f fs)
    have hl : loop s f = _ := loop_nan s f ((sensorFailed_iff f).1 hf)
    simp only [runState, hl]
    exact ih s (fun g hg => h g (List.mem_cons_of_mem f hg))

/-! ## One tick, observed -/

theorem batch_re_publish_old (s : State) (e : TickEnv) :
    (batch_re_publish s e).1.temperature_old = s.temperature_old ∧
    (batch_re_publish s e).1.humidity_old = s.humidity_old := by
  unfold batch_re_publish
  split_ifs <;> simp

theorem batch_re_publish_single_docs (s : State) (e : TickEnv) :
    single_docs (batch_re_publish s e).2 = [] := by
  by_cases hb : s.batch_data = []
  · rw [batch_re_publish_empty s e hb]; rfl
  · rw [batch_re_publish_nonempty s e hb]
    cases hc : e.batch_connected <;>
      simp [single_docs, asSingle, List.filterMap_append, mqtt_connect_single_docs]

theorem batch_re_publish_failed_singles (s : State) (e : TickEnv) :
    failed_singles (batch_re_publish s e).2 = [] := by
  by_cases hb : s.batch_data = []
  · rw [batch_re_publish_empty s e hb]; rfl
  · rw [batch_re_publish_nonempty s e hb]
    cases hc : e.batch_connected <;>
      simp [failed_singles, asFailedSingle, List.filterMap_append, mqtt_connect_failed_singles]

theorem batch_re_publish_batch_docs (s : State) (e : TickEnv) (hb : s.batch_data ≠ []) :
    batch_docs (batch_re_publish s e).2
      = [s.batch_data.map (batch_entry e.batch_epoch_time)] := by
  rw [batch_re_publish_nonempty s e hb]
  cases hc : e.batch_connected <;>
    simp [batch_docs, asBatch, List.filterMap_append, mqtt_connect_batch_docs]

theorem loop_pipeline_single_docs (s : State) (e : TickEnv) (hv : validSample e) :
    single_docs (loop_pipeline s e).2.1 = if changed s e then [e.reading.toData] else [] := by
  cases hc : changed s e
  · rw [loop_pipeline_same s e hv hc]; rfl
  · rw [loop_pipeline_changed s e hv hc]
    cases hcn : e.connected <;>
      simp [single_docs, asSingle, List.filterMap_append, mqtt_connect_single_docs]

theorem loop_pipeline_batch_docs (s : State) (e : TickEnv) :
    batch_docs (loop_pipeline s e).2.1 = [] := by
  unfold loop_pipeline
  split_ifs <;>
    simp [batch_docs, asBatch, List.filterMap_append, mqtt_connect_batch_docs]

theorem loop_single_docs (s : State) (e : TickEnv) (hv : validSample e) :
    single_docs (loop s e).2 = if changed s e then [e.reading.toData] else [] := by
  rw [loop_valid s e hv, single_docs_append, single_docs_append, batch_re_publish_single_docs,
    loop_pipeline_single_docs s e hv]
  simp [single_docs, asSingle]

theorem loop_old (s : State) (e : TickEnv) (hv : validSample e) :
    ((loop s e).1.temperature_old, (loop s e).1.humidity_old)
      = if changed s e then (e.temperature, e.humidity)
        else (s.temperature_old, s.humidity_old) := by
  rw [loop_valid s e hv]
  simp only [(batch_re_publish_old _ e).1, (batch_re_publish_old _ e).2]
  cases hc : changed s e
  · rw [loop_pipeline_same s e hv hc]; simp
  · rw [loop_pipeline_changed s e hv hc]; simp

theorem not_validSample_iff (e : TickEnv) : ¬ validSample e ↔ sensorFailed e := by
  unfold validSample sensorFailed
  cases isnan e.temperature <;> cases isnan e.humidity <;> simp

/-- After any tick the stored sample is the sample of the latest publish attempt on
`MQTT_PUBLISH`, or the one stored before when the tick made none. -/
theorem loop_lastProduced (s : State) (e : TickEnv) :
    lastProduced (s.temperature_old, s.humidity_old) (loop s e).2
      = ((loop s e).1.temperature_old, (loop s e).1.humidity_old) := by
  by_cases hv : validSample e
  · rw [loop_old s e hv]
    cases hc : changed s e
    · exact lastProduced_of_nil _ _ (by rw [loop_single_docs s e hv, hc]; rfl)
    · rw [lastProduced_of_singleton _ _ e.reading.toData (by rw [loop_single_docs s e hv, hc]; rfl)]
      rfl
  · have hf := (sensorFailed_iff e).1 ((not_validSample_iff e).1 hv)
    rw [loop_nan s e hf]
    rfl

theorem run_lastProduced (envs : List TickEnv) (s : State) :
    lastProduced (s.temperature_old, s.humidity_old) (runTrace s envs)
      = ((runState s envs).temperature_old, (runState s envs).humidity_old) := by
  induction envs generalizing s with
  | nil => rfl
  | cons e es ih =>
    simp only [runTrace, runState]
    rw [lastProduced_append, loop_lastProduced, ih]

/-! ## Runs in which every publish succeeds -/

theorem F32.ne_self (a : F32) (h : isnan a = false) : F32.ne a a = false := by
  simp [F32.ne, h]

theorem F32.ne_comm (a b : F32) : F32.ne a b = F32.ne b a := by
  unfold F32.ne
  have h : (a.bits == b.bits) = (b.bits == a.bits) := by
    rw [Bool.eq_iff_iff]
    simp only [beq_iff_eq]
    exact eq_comm
  rw [h]
  cases isnan a <;> cases isnan b <;> cases (b.bits == a.bits) <;>
    cases (a.bits % 2147483648 == 0) <;> cases (b.bits % 2147483648 == 0) <;> rfl

theorem F32.ne_congr (a b c : F32) (h : F32.ne a b = false) : F32.ne c a = F32.ne c b := by
  unfold F32.ne at h ⊢
  simp only [Bool.or_eq_false_iff, Bool.not_eq_false_eq_eq_true, Bool.or_eq_true,
    Bool.and_eq_true, beq_iff_eq] at h
  obtain ⟨⟨ha, hb⟩, h⟩ := h
  rw [ha, hb]
  rcases h with h | ⟨h1, h2⟩
  · have : a = b := by cases a; cases b; simp_all
    rw [this]
  · have e1 : (a.bits % 2147483648 == 0) = true := beq_iff_eq.2 h1
    have e2 : (b.bits % 2147483648 == 0) = true := beq_iff_eq.2 h2
    by_cases hc : c.bits % 2147483648 = 0
    · have e3 : (c.bits % 2147483648 == 0) = true := beq_iff_eq.2 hc
      rw [e1, e2, e3]
      simp
    · have hca : (c.bits == a.bits) = false := beq_false_of_ne (fun h => hc (h ▸ h1))
      have hcb : (c.bits == b.bits) = false := beq_false_of_ne (fun h => hc (h ▸ h2))
      rw [hca, hcb, e1, e2]

/-- One tick on an empty buffer with a valid sample and a successful publish. -/
theorem loop_all_ok (s : State) (e : TickEnv) (hb : s.batch_data = []) (hv : validSample e)
    (hp : e.publish = true) :
    (loop s e).1.batch_data = [] ∧
    publish_calls (loop s e).2 = (if changed s e then [(Topic.MQTT_PUBLISH, true)] else []) ∧
    batch_docs (loop s e).2 = [] := by
  rw [loop_valid s e hv]
  cases hc : changed s e
  · rw [loop_pipeline_same s e hv hc, batch_re_publish_empty s e hb]
    exact ⟨hb, rfl, rfl⟩
  · rw [loop_pipeline_changed s e hv hc]
    simp only [hp, if_true]
    rw [batch_re_publish_empty ⟨s.batch_data, e.temperature, e.humidity⟩ e hb]
    refine ⟨hb, ?_, ?_⟩ <;>
    cases hcn : e.connected <;>
      simp [publish_calls, asPublish, batch_docs, asBatch, List.filterMap_append,
        mqtt_connect_publish_calls, mqtt_connect_batch_docs]

theorem run_all_ok (envs : List TickEnv) (s : State) (prev : F32 × F32)
    (hb : s.batch_data = [])
    (hprev : F32.ne s.temperature_old prev.1 = false ∧ F32.ne s.humidity_old prev.2 = false)
    (h : ∀ x ∈ envs, validSample x ∧ x.publish = true) :
    (runState s envs).batch_data = [] ∧
    publish_calls (runTrace s envs)
      = List.replicate (changesFrom prev (envs.map sampleOf)) (Topic.MQTT_PUBLISH, true) ∧
    batch_docs (runTrace s envs) = [] ∧
    (single_docs (runTrace s envs)).length = changesFrom prev (envs.map sampleOf) := by
  induction envs generalizing s prev with
  | nil => exact ⟨hb, rfl, rfl, rfl⟩
  | cons e es ih =>
    obtain ⟨hv, hp⟩ := h e (List.mem_cons_self e es)
    obtain ⟨h1, h2, h3⟩ := loop_all_ok s e hb hv hp
    have hold := loop_old s e hv
    have hch : changed s e = differs (sampleOf e) prev := by
      unfold changed differs sampleOf
      rw [F32.ne_congr _ _ _ hprev.1, F32.ne_congr _ _ _ hprev.2]
    have hnext : F32.ne (loop s e).1.temperature_old (sampleOf e).1 = false ∧
        F32.ne (loop s e).1.humidity_old (sampleOf e).2 = false := by
      cases hc : changed s e
      · rw [hc] at hold
        rw [(Prod.mk.inj hold).1, (Prod.mk.inj hold).2]
        unfold changed at hc
        simp only [Bool.or_eq_false_iff] at hc
        exact ⟨by rw [F32.ne_comm]; exact hc.1, by rw [F32.ne_comm]; exact hc.2⟩
      · rw [hc] at hold
        rw [(Prod.mk.inj hold).1, (Prod.mk.inj hold).2]
        exact ⟨F32.ne_self _ hv.1, F32.ne_self _ hv.2⟩
    obtain ⟨i1, i2, i3, i4⟩ := ih (loop s e).1 (sampleOf e) h1 hnext
      (fun x hx => h x (List.mem_cons_of_mem e hx))
    refine ⟨i1, ?_, ?_, ?_⟩
    · simp only [runTrace, publish_calls_append, h2, i2, List.map_cons, changesFrom, hch]
      cases differs (sampleOf e) prev <;> simp [List.replicate_succ, Nat.add_comm]
    · simp only [runTrace, batch_docs_append, h3, i3, List.append_nil]
    · simp only [runTrace, single_docs_append, List.length_append, loop_single_docs s e hv, i4,
        List.map_cons, changesFrom, hch]
      cases differs (sampleOf e) prev <;> simp

/-! ## The retry buffer over a run -/

theorem loop_pipeline_failed_singles (s : State) (e : TickEnv) :
    failed_singles (loop_pipeline s e).2.1
      = (if validSample e ∧ changed s e = true ∧ e.publish = false then [e.reading] else []) := by
  by_cases hv : validSample e
  · cases hc : changed s e
    · rw [loop_pipeline_same s e hv hc]; simp [failed_singles, asFailedSingle]
    · rw [loop_pipeline_changed s e hv hc]
      cases hp : e.publish <;> cases hcn : e.connected <;>
        simp [hv, failed_singles, asFailedSingle, List.filterMap_append,
          mqtt_connect_failed_singles, JsonData.toReading, Reading.toData]
  · have hf := (sensorFailed_iff e).1 ((not_validSample_iff e).1 hv)
    simp only [loop_pipeline, hf, if_true]
    simp [hv, failed_singles, asFailedSingle]

theorem loop_pipeline_buffer (s : State) (e : TickEnv) :
    (loop_pipeline s e).1.batch_data = s.batch_data ++ failed_singles (loop_pipeline s e).2.1 := by
  rw [loop_pipeline_failed_singles]
  by_cases hv : validSample e
  · cases hc : changed s e
    · rw [loop_pipeline_same s e hv hc]; simp
    · rw [loop_pipeline_changed s e hv hc]
      cases hp : e.publish <;> simp [hv]
  · have hf := (sensorFailed_iff e).1 ((not_validSample_iff e).1 hv)
    simp only [loop_pipeline, hf, if_true]
    simp [hv]

theorem loop_pipeline_batch_ok_docs (s : State) (e : TickEnv) :
    batch_ok_docs (loop_pipeline s e).2.1 = [] := by
  unfold loop_pipeline
  split_ifs <;>
    simp [batch_ok_docs, asBatchOk, List.filterMap_append, mqtt_connect_batch_ok_docs]

theorem loop_failed_singles (s : State) (e : TickEnv) :
    failed_singles (loop s e).2 = failed_singles (loop_pipeline s e).2.1 := by
  by_cases hv : validSample e
  · rw [loop_valid s e hv, failed_singles_append, failed_singles_append,
      batch_re_publish_failed_singles]
    simp [failed_singles, asFailedSingle]
  · have hf := (sensorFailed_iff e).1 ((not_validSample_iff e).1 hv)
    rw [loop_nan s e hf]
    simp only [loop_pipeline, hf, if_true]
    rfl

/-- One tick: either no batch publish returned `true` and the buffer grew at the end by the
readings whose single publish failed, or one batch publish returned `true`, it carried the
whole buffer including those readings, and the buffer is empty. -/
theorem loop_buffer_step (s : State) (e : TickEnv) :
    (batch_ok_docs (loop s e).2 = [] ∧
      (loop s e).1.batch_data = s.batch_data ++ failed_singles (loop s e).2) ∨
    (batch_ok_docs (loop s e).2
        = [(s.batch_data ++ failed_singles (loop s e).2).map (batch_entry e.batch_epoch_time)] ∧
      (loop s e).1.batch_data = []) := by
  rw [loop_failed_singles, ← loop_pipeline_buffer]
  by_cases hv : validSample e
  · rw [loop_valid s e hv, batch_ok_docs_append, batch_ok_docs_append,
      loop_pipeline_batch_ok_docs]
    by_cases hb : (loop_pipeline s e).1.batch_data = []
    · left
      rw [batch_re_publish_empty _ e hb]
      exact ⟨rfl, rfl⟩
    · rw [batch_re_publish_nonempty _ e hb]
      cases hp : e.batch_publish <;> cases hc : e.batch_connected <;>
        simp [batch_ok_docs, asBatchOk, List.filterMap_append, mqtt_connect_batch_ok_docs]
  · have hf := (sensorFailed_iff e).1 ((not_validSample_iff e).1 hv)
    left
    rw [loop_nan s e hf]
    simp only [loop_pipeline, hf, if_true]
    exact ⟨rfl, trivial⟩

theorem retryBufferSpec_append (buf : List Reading) (a b : List Event) :
    retryBufferSpec buf (a ++ b) = retryBufferSpec (retryBufferSpec buf a) b := by
  simp [retryBufferSpec, List.foldl_append]

theorem retryBufferSpec_mqtt_connect (buf : List Reading) (r : Bool) :
    retryBufferSpec buf (mqtt_connect r) = buf := by
  cases r <;> rfl

theorem filter_carried (buf : List Reading) (t : Nat) :
    buf.filter (fun r => !((buf.map (batch_entry t)).map (fun x => x.data)).contains r.toData)
      = [] := by
  rw [List.filter_eq_nil_iff]
  intro r hr
  have hmem : r.toData ∈ (buf.map (batch_entry t)).map (fun x => x.data) :=
    List.mem_map.2 ⟨batch_entry t r, List.mem_map.2 ⟨r, hr, rfl⟩, rfl⟩
  have hc : ((buf.map (batch_entry t)).map (fun x => x.data)).contains r.toData = true :=
    List.elem_eq_true_of_mem hmem
  rw [hc]
  simp

/-- One tick changes the buffer as the specification's rule prescribes for its trace. -/
theorem loop_retryBufferSpec (s : State) (e : TickEnv) :
    retryBufferSpec s.batch_data (loop s e).2 = (loop s e).1.batch_data := by
  by_cases hv : validSample e
  · rw [loop_valid s e hv]
    simp only [retryBufferSpec_append]
    have h1 : retryBufferSpec s.batch_data (loop_pipeline s e).2.1
        = (loop_pipeline s e).1.batch_data := by
      cases hc : changed s e
      · rw [loop_pipeline_same s e hv hc]; rfl
      · rw [loop_pipeline_changed s e hv hc]
        simp only [retryBufferSpec_append]
        cases hp : e.publish <;> cases hcn : e.connected <;>
          simp [retryBufferSpec_mqtt_connect] <;>
          simp [retryBufferSpec, retryBufferStep, JsonData.toReading, Reading.toData,
            TickEnv.reading]
    rw [h1]
    by_cases hb : (loop_pipeline s e).1.batch_data = []
    · rw [batch_re_publish_empty _ e hb]; rfl
    · rw [batch_re_publish_nonempty _ e hb]
      simp only [retryBufferSpec_append]
      have hfc := filter_carried (loop_pipeline s e).1.batch_data e.batch_epoch_time
      cases hp : e.batch_publish <;> cases hcn : e.batch_connected <;>
        simp only [retryBufferSpec_mqtt_connect, if_true, if_false, Bool.false_eq_true,
          List.append_nil] <;>
        simp only [retryBufferSpec, retryBufferStep, List.foldl_cons, List.foldl_nil, hfc]
  · have hf := (sensorFailed_iff e).1 ((not_validSample_iff e).1 hv)
    rw [loop_nan s e hf]
    rfl

theorem run_retryBufferSpec (envs : List TickEnv) (s : State) :
    (runState s envs).batch_data = retryBufferSpec s.batch_data (runTrace s envs) := by
  induction envs generalizing s with
  | nil => rfl
  | cons e es ih =>
    simp only [runTrace, runState]
    rw [retryBufferSpec_append, loop_retryBufferSpec, ih]

theorem run_buffer_suffix (envs : List TickEnv) (s : State) :
    List.IsSuffix (runState s envs).batch_data
      (s.batch_data ++ failed_singles (runTrace s envs)) := by
  induction envs generalizing s with
  | nil => exact ⟨[], by simp [runState, runTrace, failed_singles]⟩
  | cons e es ih =>
    simp only [runTrace, runState, failed_singles_append]
    obtain ⟨t, ht⟩ := ih (loop s e).1
    have hstep : List.IsSuffix (loop s e).1.batch_data
        (s.batch_data ++ failed_singles (loop s e).2) := by
      rcases loop_buffer_step s e with ⟨_, h⟩ | ⟨_, h⟩
      · rw [h]
      · rw [h]; exact List.nil_suffix
    obtain ⟨u, hu⟩ := hstep
    refine ⟨u ++ t, ?_⟩
    rw [← List.append_assoc s.batch_data, ← hu, List.append_assoc u t, ht, List.append_assoc]

theorem run_buffer_accumulates (envs : List TickEnv) (s : State)
    (h : batch_ok_docs (runTrace s envs) = []) :
    (runState s envs).batch_data = s.batch_data ++ failed_singles (runTrace s envs) := by
  induction envs generalizing s with
  | nil => simp [runState, runTrace, failed_singles]
  | cons e es ih =>
    simp only [runTrace, batch_ok_docs_append, List.append_eq_nil] at h
    simp only [runTrace, runState, failed_singles_append]
    rw [ih (loop s e).1 h.2]
    rcases loop_buffer_step s e with ⟨_, h2⟩ | ⟨h1, _⟩
    · rw [h2]; simp
    · rw [h.1] at h1; cases h1

/-! ## Clock values and buffered timestamps -/

theorem batch_re_publish_clock_reads (s : State) (e : TickEnv) :
    clock_reads (batch_re_publish s e).2
      = (if s.batch_data = [] then [] else [e.batch_epoch_time]) := by
  by_cases hb : s.batch_data = []
  · rw [batch_re_publish_empty s e hb]; simp [hb, clock_reads]
  · rw [batch_re_publish_nonempty s e hb]
    cases hc : e.batch_connected <;>
      simp [hb, clock_reads, asClockRead, List.filterMap_append, mqtt_connect_clock_reads]

theorem loop_pipeline_clock_reads (s : State) (e : TickEnv) :
    clock_reads (loop_pipeline s e).2.1 = [e.epoch_time] := by
  unfold loop_pipeline
  split_ifs <;>
    simp [clock_reads, asClockRead, List.filterMap_append, mqtt_connect_clock_reads]

/-- The clock reads of one tick: line 112 always, line 182 when the sample is valid and the
buffer is not empty after the pipeline. -/
theorem loop_clock_reads (s : State) (e : TickEnv) :
    clock_reads (loop s e).2
      = e.epoch_time ::
        (if validSample e ∧ (loop_pipeline s e).1.batch_data ≠ [] then [e.batch_epoch_time]
          else []) := by
  by_cases hv : validSample e
  · rw [loop_valid s e hv, clock_reads_append, clock_reads_append, loop_pipeline_clock_reads,
      batch_re_publish_clock_reads]
    by_cases hb : (loop_pipeline s e).1.batch_data = [] <;> simp [hv, hb, clock_reads, asClockRead]
  · have hf := (sensorFailed_iff e).1 ((not_validSample_iff e).1 hv)
    rw [loop_nan s e hf]
    simp [hv, clock_reads, asClockRead]

theorem loop_buffer_mem (s : State) (e : TickEnv) (r : Reading)
    (hr : r ∈ (loop s e).1.batch_data) : r ∈ s.batch_data ∨ r = e.reading := by
  rcases loop_buffer_step s e with ⟨_, h⟩ | ⟨_, h⟩
  · rw [h, loop_failed_singles, loop_pipeline_failed_singles] at hr
    split_ifs at hr <;> simp at hr <;> tauto
  · rw [h] at hr; cases hr

/-- Timestamps in the buffer are values the clock returned earlier in the run. -/
theorem run_buffer_reads (envs : List TickEnv) (s : State) :
    ∀ r ∈ (runState s envs).batch_data,
      r ∈ s.batch_data ∨ r.epoch_time ∈ clock_reads (runTrace s envs) := by
  induction envs generalizing s with
  | nil => intro r hr; exact Or.inl hr
  | cons e es ih =>
    intro r hr
    simp only [runTrace, clock_reads_append, List.mem_append]
    rcases ih (loop s e).1 r hr with h | h
    · rcases loop_buffer_mem s e r h with h2 | h2
      · exact Or.inl h2
      · right; left
        rw [loop_clock_reads, h2]
        exact List.mem_cons_self _ _
    · exact Or.inr (Or.inr h)

theorem loop_batch_docs_mem (s : State) (e : TickEnv) (b : List JsonBatchEntry)
    (hb : b ∈ batch_docs (loop s e).2) :
    b = (loop_pipeline s e).1.batch_data.map (batch_entry e.batch_epoch_time) := by
  by_cases hv : validSample e
  · rw [loop_valid s e hv, batch_docs_append, batch_docs_append, loop_pipeline_batch_docs] at hb
    by_cases hne : (loop_pipeline s e).1.batch_data = []
    · rw [batch_re_publish_empty _ e hne] at hb
      simp [batch_docs, asBatch] at hb
    · rw [batch_re_publish_batch_docs _ e hne] at hb
      simpa [batch_docs, asBatch] using hb
  · have hf := (sensorFailed_iff e).1 ((not_validSample_iff e).1 hv)
    rw [loop_nan s e hf] at hb
    simp [batch_docs, asBatch] at hb

theorem mqtt_connect_mqtt_calls (r : Bool) :
    mqtt_calls (mqtt_connect r) = [Event.mqtt_connect r] := by
  cases r <;> rfl

theorem mqtt_calls_append (a b : List Event) :
    mqtt_calls (a ++ b) = mqtt_calls a ++ mqtt_calls b := by
  simp [mqtt_calls]

/-! ## The claims -/

/-- C1: change detection. After any sequence of ticks from the startup state the stored
sample is the sample of the latest publish attempt on `MQTT_PUBLISH` (the startup value
(0.0, 0.0) when there was none). On the next tick with a valid sample a publish on
`MQTT_PUBLISH` is attempted if and only if temperature or humidity differs from that sample,
and then exactly once, with the reading of this tick. When they do not differ, the tick
attempts no such publish, the pipeline leaves the whole state as it was, and the tick as a
whole leaves the stored sample alone and the buffer either as it was or flushed. -/
theorem change_detection (envs : List TickEnv) (e : TickEnv) (hv : validSample e) :
    ((runState State.init envs).temperature_old, (runState State.init envs).humidity_old)
      = lastProduced (F32.zero, F32.zero) (runTrace State.init envs) ∧
    (single_docs (loop (runState State.init envs) e).2 ≠ [] ↔
      differs (sampleOf e) (lastProduced (F32.zero, F32.zero) (runTrace State.init envs)) = true) ∧
    (differs (sampleOf e) (lastProduced (F32.zero, F32.zero) (runTrace State.init envs)) = true →
      single_docs (loop (runState State.init envs) e).2 = [e.reading.toData] ∧
      publish_calls (loop_pipeline (runState State.init envs) e).2.1
        = [(Topic.MQTT_PUBLISH, e.publish)]) ∧
    (differs (sampleOf e) (lastProduced (F32.zero, F32.zero) (runTrace State.init envs)) = false →
      single_docs (loop (runState State.init envs) e).2 = [] ∧
      publish_calls (loop_pipeline (runState State.init envs) e).2.1 = [] ∧
      (loop_pipeline (runState State.init envs) e).1 = runState State.init envs ∧
      (loop (runState State.init envs) e).1.temperature_old
        = (runState State.init envs).temperature_old ∧
      (loop (runState State.init envs) e).1.humidity_old
        = (runState State.init envs).humidity_old ∧
      ((loop (runState State.init envs) e).1.batch_data = (runState State.init envs).batch_data ∨
        (loop (runState State.init envs) e).1.batch_data = [])) := by
  have hinv := run_lastProduced envs State.init
  have hinit : (State.init.temperature_old, State.init.humidity_old) = (F32.zero, F32.zero) := rfl
  rw [hinit] at hinv
  generalize runState State.init envs = s at hinv ⊢
  have hd : differs (sampleOf e) (lastProduced (F32.zero, F32.zero) (runTrace State.init envs))
      = changed s e := by
    rw [hinv]; rfl
  rw [hd]
  refine ⟨hinv.symm, ?_, ?_, ?_⟩
  · rw [loop_single_docs s e hv]
    cases changed s e <;> simp
  · intro hc
    refine ⟨by rw [loop_single_docs s e hv, hc]; rfl, ?_⟩
    rw [loop_pipeline_changed s e hv hc]
    cases hcn : e.connected <;>
      simp [publish_calls, asPublish, List.filterMap_append, mqtt_connect_publish_calls]
  · intro hc
    have hold := loop_old s e hv
    rw [hc] at hold
    have hp := loop_pipeline_same s e hv hc
    refine ⟨by rw [loop_single_docs s e hv, hc]; rfl, by rw [hp]; rfl, by rw [hp],
      (Prod.mk.inj hold).1, (Prod.mk.inj hold).2, ?_⟩
    rw [loop_valid s e hv, hp]
    by_cases hb : s.batch_data = []
    · left; rw [batch_re_publish_empty s e hb]
    · rw [batch_re_publish_nonempty s e hb]
      cases e.batch_publish <;> simp


/-- C7: a tick in which the sensor returns not-a-number for the temperature or for the
humidity leaves `batch_data`, `temperature_old` and `humidity_old` as they were and calls
neither `mqtt.publish` nor `mqtt.connect`; hence after any number of such ticks the next
tick yields the same state and the same calls as it would have without them. -/
theorem sensor_failure_tick (s : State) (e : TickEnv) (fails : List TickEnv) (next : TickEnv)
    (he : sensorFailed e) (hfails : ∀ f ∈ fails, sensorFailed f) :
    (loop s e).1 = s ∧
    publish_calls (loop s e).2 = [] ∧
    single_docs (loop s e).2 = [] ∧
    connect_calls (loop s e).2 = [] ∧
    runState s fails = s ∧
    loop (runState s fails) next = loop s next ∧
    runState s (fails ++ [next]) = (loop s next).1 := by
  have hl := loop_nan s e ((sensorFailed_iff e).1 he)
  have hr := runState_sensorFailed s fails hfails
  refine ⟨by rw [hl], by rw [hl]; rfl, by rw [hl]; rfl, by rw [hl]; rfl, hr, by rw [hr], ?_⟩
  rw [runState_append, hr]
  rfl

/-- C4: on a non-empty buffer `[r1, ..., rn]` the function `batch_re_publish` reads the
clock once (value `T`), publishes one document, on `MQTT_PUBLISH_BATCH`, whose array has
`n` elements, the i-th carrying the time, temp, humid and index of `ri` and `ts = T - ri.time`
(as `unsigned long`; the plain difference whenever `ri.time ≤ T < 2^32`). After a failed
attempt the next attempt builds the array again from the same tuples with its own clock
value. -/
theorem batch_payload_in_order (s : State) (e e2 : TickEnv) (h : s.batch_data ≠ []) :
    batch_docs (batch_re_publish s e).2 = [s.batch_data.map (batch_entry e.batch_epoch_time)] ∧
    single_docs (batch_re_publish s e).2 = [] ∧
    clock_reads (batch_re_publish s e).2 = [e.batch_epoch_time] ∧
    (s.batch_data.map (batch_entry e.batch_epoch_time)).length = s.batch_data.length ∧
    (∀ (i : Nat) (r : Reading), s.batch_data[i]? = some r →
      (s.batch_data.map (batch_entry e.batch_epoch_time))[i]?
        = some { data := { time := r.epoch_time, temp := r.temperature,
                           humid := r.humidity, index := r.heat_index },
                 ts := ulong_sub e.batch_epoch_time r.epoch_time }) ∧
    (∀ r ∈ s.batch_data, r.epoch_time ≤ e.batch_epoch_time → e.batch_epoch_time < ULONG_MOD →
      (batch_entry e.batch_epoch_time r).ts = e.batch_epoch_time - r.epoch_time) ∧
    (e.batch_publish = false →
      batch_docs (batch_re_publish (batch_re_publish s e).1 e2).2
        = [s.batch_data.map (batch_entry e2.batch_epoch_time)]) := by
  have hdocs : ∀ x : TickEnv, batch_docs (batch_re_publish s x).2
      = [s.batch_data.map (batch_entry x.batch_epoch_time)] := by
    intro x
    rw [batch_re_publish_nonempty s x h]
    cases hc : x.batch_connected <;>
      simp [batch_docs, asBatch, List.filterMap_append, mqtt_connect_batch_docs]
  refine ⟨hdocs e, ?_, ?_, by simp, ?_, ?_, ?_⟩
  · rw [batch_re_publish_nonempty s e h]
    cases hc : e.batch_connected <;>
      simp [single_docs, asSingle, List.filterMap_append, mqtt_connect_single_docs]
  · rw [batch_re_publish_nonempty s e h]
    cases hc : e.batch_connected <;>
      simp [clock_reads, asClockRead, List.filterMap_append, mqtt_connect_clock_reads]
  · intro i r hr
    simp [List.getElem?_map, hr, batch_entry]
  · intro r _ hle hlt
    exact ulong_sub_exact _ _ hle hlt
  · intro hp
    have hsame : (batch_re_publish s e).1 = s := by
      rw [batch_re_publish_nonempty s e h]; simp [hp]
    rw [hsame]
    exact hdocs e2

/-- C8 (amended): from the startup state, with valid samples and every publish returning
`true`, the calls of `mqtt.publish` are exactly as many successful publishes on
`MQTT_PUBLISH` as there are samples that differ from the sample before them, the startup
value (0.0, 0.0) standing in as the sample before the first (so the first sample counts
one exactly when it differs from (0.0, 0.0)); the buffer is empty after every tick and
nothing is published on `MQTT_PUBLISH_BATCH`. -/
theorem singles_count_all_ok (envs : List TickEnv)
    (h : ∀ x ∈ envs, validSample x ∧ x.publish = true ∧ x.batch_publish = true) :
    publish_calls (runTrace State.init envs)
      = List.replicate (changesFrom (F32.zero, F32.zero) (envs.map sampleOf))
          (Topic.MQTT_PUBLISH, true) ∧
    (single_docs (runTrace State.init envs)).length
      = changesFrom (F32.zero, F32.zero) (envs.map sampleOf) ∧
    (∀ (x : TickEnv) (t : List TickEnv), envs = x :: t →
      (single_docs (runTrace State.init envs)).length
        = (if differs (sampleOf x) (F32.zero, F32.zero) then 1 else 0)
          + changesFrom (sampleOf x) (t.map sampleOf)) ∧
    (∀ k : Nat, (runState State.init (envs.take k)).batch_data = []) ∧
    batch_docs (runTrace State.init envs) = [] := by
  have hz : F32.ne State.init.temperature_old (F32.zero, F32.zero).1 = false ∧
      F32.ne State.init.humidity_old (F32.zero, F32.zero).2 = false := ⟨rfl, rfl⟩
  have h2 : ∀ x ∈ envs, validSample x ∧ x.publish = true := fun x hx => ⟨(h x hx).1, (h x hx).2.1⟩
  obtain ⟨_, r2, r3, hlen⟩ := run_all_ok envs State.init (F32.zero, F32.zero) rfl hz h2
  refine ⟨r2, hlen, ?_, ?_, r3⟩
  · intro x t hxt
    rw [hlen, hxt]
    rfl
  · intro k
    exact (run_all_ok (envs.take k) State.init (F32.zero, F32.zero) rfl hz
      (fun x hx => h2 x (List.mem_of_mem_take hx))).1

/-- C5: retry-buffer invariant. After any run from the startup state the buffer is what
the specification's rule gives for the trace (a reading enters when its own publish on
`MQTT_PUBLISH` returned `false`, leaves when a publish on `MQTT_PUBLISH_BATCH` carrying it
returned `true`), and it is a final segment of the list of readings whose single publish
failed. In the next tick a successful single publish appends nothing; the tick either sees
no successful batch publish and then the buffer has grown at the end by the reading that
failed in it (if any), or it sees one successful batch publish, which carried the whole
buffer with that reading, and the buffer is empty. Over further ticks without a successful
batch publish the buffer is the old one followed by all readings that failed meanwhile. -/
theorem retry_buffer_invariant (envs more : List TickEnv) (e : TickEnv)
    (hmore : batch_ok_docs (runTrace (runState State.init envs) more) = []) :
    (runState State.init envs).batch_data = retryBufferSpec [] (runTrace State.init envs) ∧
    List.IsSuffix (runState State.init envs).batch_data
      (failed_singles (runTrace State.init envs)) ∧
    (e.publish = true →
      (loop_pipeline (runState State.init envs) e).1.batch_data
        = (runState State.init envs).batch_data) ∧
    failed_singles (loop (runState State.init envs) e).2
      = (if validSample e ∧ changed (runState State.init envs) e = true ∧ e.publish = false
          then [e.reading] else []) ∧
    ((batch_ok_docs (loop (runState State.init envs) e).2 = [] ∧
        (loop (runState State.init envs) e).1.batch_data
          = (runState State.init envs).batch_data
              ++ failed_singles (loop (runState State.init envs) e).2) ∨
      (batch_ok_docs (loop (runState State.init envs) e).2
          = [((runState State.init envs).batch_data
                ++ failed_singles (loop (runState State.init envs) e).2).map
              (batch_entry e.batch_epoch_time)] ∧
        (loop (runState State.init envs) e).1.batch_data = [])) ∧
    (runState (runState State.init envs) more).batch_data
      = (runState State.init envs).batch_data
          ++ failed_singles (runTrace (runState State.init envs) more) := by
  refine ⟨run_retryBufferSpec envs State.init, ?_, ?_, ?_, loop_buffer_step _ e,
    run_buffer_accumulates more _ hmore⟩
  · simpa [State.init] using run_buffer_suffix envs State.init
  · intro hp
    rw [loop_pipeline_buffer, loop_pipeline_failed_singles]
    simp [hp]
  · rw [loop_failed_singles, loop_pipeline_failed_singles]

/-- C6 (amended): in every tick whose sample is valid, changed or not, `loop` runs
`batch_re_publish` after the pipeline and then the loop delay, so a non-empty buffer gets
one batch publish attempt in that tick; a tick in which the sensor returns not-a-number
returns at line 124, before the flush, and attempts no batch publish. -/
theorem flush_after_valid_tick (s : State) (e f : TickEnv)
    (hv : validSample e) (hf : sensorFailed f) :
    (loop s e).1 = (batch_re_publish (loop_pipeline s e).1 e).1 ∧
    (loop s e).2 = (loop_pipeline s e).2.1 ++ (batch_re_publish (loop_pipeline s e).1 e).2
      ++ [Event.delay LOOP_INTERVAL] ∧
    ((loop_pipeline s e).1.batch_data ≠ [] →
      batch_docs (loop s e).2
        = [(loop_pipeline s e).1.batch_data.map (batch_entry e.batch_epoch_time)]) ∧
    (s.batch_data ≠ [] → (batch_docs (loop s e).2).length = 1) ∧
    batch_docs (loop s f).2 = [] ∧
    (loop s f).1 = s := by
  have hl := loop_valid s e hv
  have hdocs : (loop_pipeline s e).1.batch_data ≠ [] →
      batch_docs (loop s e).2
        = [(loop_pipeline s e).1.batch_data.map (batch_entry e.batch_epoch_time)] := by
    intro hne
    rw [hl, batch_docs_append, batch_docs_append, loop_pipeline_batch_docs,
      batch_re_publish_batch_docs _ e hne]
    rfl
  have hfl := loop_nan s f ((sensorFailed_iff f).1 hf)
  refine ⟨by rw [hl], by rw [hl], hdocs, ?_, by rw [hfl]; rfl, by rw [hfl]⟩
  intro hs
  have hne : (loop_pipeline s e).1.batch_data ≠ [] := by
    rw [loop_pipeline_buffer]
    simp [hs]
  rw [hdocs hne]
  rfl

/-- C9: reconnect before publish. In the pipeline (valid, changed sample) and in
`batch_re_publish` (non-empty buffer) the calls of the MQTT client are: `connected()`, then
`connect` exactly when `connected()` returned `false`, then `publish` exactly once. The
function `mqtt_connect` calls `connect` exactly once. The buffer afterwards depends on the
result of `publish` only: appended to (single) when it is `false`, emptied (batch) when it
is `true`. -/
theorem reconnect_before_publish (s sb : State) (e : TickEnv) (r : Bool)
    (hv : validSample e) (hc : changed s e = true) (hb : sb.batch_data ≠ []) :
    mqtt_calls (loop_pipeline s e).2.1
      = [Event.mqtt_connected e.connected]
        ++ (if e.connected then [] else [Event.mqtt_connect e.connect])
        ++ [Event.mqtt_publish Topic.MQTT_PUBLISH (JsonDocument.data e.reading.toData)
              e.publish] ∧
    (loop_pipeline s e).1.batch_data
      = (if e.publish then s.batch_data else s.batch_data ++ [e.reading]) ∧
    mqtt_calls (batch_re_publish sb e).2
      = [Event.mqtt_connected e.batch_connected]
        ++ (if e.batch_connected then [] else [Event.mqtt_connect e.batch_connect])
        ++ [Event.mqtt_publish Topic.MQTT_PUBLISH_BATCH
              (JsonDocument.batch (sb.batch_data.map (batch_entry e.batch_epoch_time)))
              e.batch_publish] ∧
    (batch_re_publish sb e).1.batch_data = (if e.batch_publish then [] else sb.batch_data) ∧
    mqtt_calls (mqtt_connect r) = [Event.mqtt_connect r] := by
  refine ⟨?_, ?_, ?_, ?_, mqtt_connect_mqtt_calls r⟩
  · rw [loop_pipeline_changed s e hv hc]
    cases hcn : e.connected
    · simp only [mqtt_calls_append, mqtt_connect_mqtt_calls, if_false, Bool.false_eq_true]
      rfl
    · rfl
  · rw [loop_pipeline_changed s e hv hc]
  · rw [batch_re_publish_nonempty sb e hb]
    cases hcn : e.batch_connected
    · simp only [mqtt_calls_append, mqtt_connect_mqtt_calls, if_false, Bool.false_eq_true]
      rfl
    · rfl
  · rw [batch_re_publish_nonempty sb e hb]

/-- C10: age arithmetic. The `ts` of an array element is the `unsigned long` difference
`T_now - time`, modulo `2^32`. When no call of `NTP.getEpochTime()` in the run returns less
than an earlier call, every element of every batch built in a tick after a run from the
startup state has `time ≤ T_now` and `ts` equal to the plain difference. When the clock at
the flush is `d > 0` below a buffered timestamp, the element published for that reading has
`ts = 2^32 - d`. -/
theorem age_arithmetic (envs : List TickEnv) (e : TickEnv) (sb : State) (eb : TickEnv)
    (r : Reading) (d : Nat)
    (hmono : List.Pairwise (fun a b => a ≤ b)
      (clock_reads (runTrace State.init (envs ++ [e]))))
    (hrange : e.batch_epoch_time < ULONG_MOD)
    (hr : r ∈ sb.batch_data) (hd : 0 < d) (ht : r.epoch_time < ULONG_MOD)
    (hback : eb.batch_epoch_time + d = r.epoch_time) :
    (∀ (T : Nat) (x : Reading),
      (batch_entry T x).ts = (T % 4294967296 + 4294967296 - x.epoch_time % 4294967296)
        % 4294967296) ∧
    (∀ b ∈ batch_docs (loop (runState State.init envs) e).2, ∀ x ∈ b,
      x.data.time ≤ e.batch_epoch_time ∧ x.ts = e.batch_epoch_time - x.data.time) ∧
    batch_docs (batch_re_publish sb eb).2
      = [sb.batch_data.map (batch_entry eb.batch_epoch_time)] ∧
    ({ data := r.toData, ts := 4294967296 - d } : JsonBatchEntry)
      ∈ sb.batch_data.map (batch_entry eb.batch_epoch_time) := by
  have hsb : sb.batch_data ≠ [] := List.ne_nil_of_mem hr
  refine ⟨fun _ _ => rfl, ?_, batch_re_publish_batch_docs sb eb hsb, ?_⟩
  · intro b hb x hx
    have hbeq := loop_batch_docs_mem _ e b hb
    have hcond : validSample e ∧ (loop_pipeline (runState State.init envs) e).1.batch_data ≠ [] := by
      constructor
      · by_contra hv
        have hf := (sensorFailed_iff e).1 ((not_validSample_iff e).1 hv)
        rw [loop_nan _ e hf] at hb
        simp [batch_docs, asBatch] at hb
      · intro hnil
        rw [hbeq, hnil] at hx
        cases hx
    rw [runTrace_append, clock_reads_append, List.pairwise_append] at hmono
    obtain ⟨_, hlast, hcross⟩ := hmono
    have hreads : clock_reads (runTrace (runState State.init envs) [e])
        = [e.epoch_time, e.batch_epoch_time] := by
      simp only [runTrace, List.append_nil]
      rw [loop_clock_reads, if_pos hcond]
    rw [hreads] at hlast hcross
    have hee : e.epoch_time ≤ e.batch_epoch_time := by
      simpa using hlast
    rw [hbeq] at hx
    obtain ⟨y, hy, hxy⟩ := List.mem_map.1 hx
    have hyT : y.epoch_time ≤ e.batch_epoch_time := by
      rw [loop_pipeline_buffer, loop_pipeline_failed_singles] at hy
      rcases List.mem_append.1 hy with h | h
      · rcases run_buffer_reads envs State.init y h with h0 | h0
        · cases h0
        · exact hcross _ h0 _ (by simp)
      · split_ifs at h
        · rw [List.mem_singleton.1 h]; exact hee
        · cases h
    rw [← hxy]
    exact ⟨hyT, ulong_sub_exact _ _ hyT hrange⟩
  · refine List.mem_map.2 ⟨r, hr, ?_⟩
    have hw := ulong_sub_wrap r.epoch_time d hd (by omega) ht
    have heq : eb.batch_epoch_time = r.epoch_time - d := by omega
    simp only [batch_entry, heq, hw, ULONG_MOD]
    rfl

/-! ## Concrete runs -/

/-- Samples (20.0, 50.0), (20.0, 50.0), then (21.0, 50.0): the third tick publishes its reading. -/
theorem change_detection_witness :
    validSample (tickUp 102 f21 f50 f19) ∧
    single_docs (loop (runState State.init [tickUp 100 f20 f50 f19, tickUp 101 f20 f50 f19])
        (tickUp 102 f21 f50 f19)).2
      = [{ time := 102, temp := f21, humid := f50, index := f19 }] :=
  ⟨by decide,
   ((change_detection [tickUp 100 f20 f50 f19, tickUp 101 f20 f50 f19]
      (tickUp 102 f21 f50 f19) (by decide)).2.2.1 (by decide)).1⟩

/-- A reading stamped 100 is flushed at clock 107 with `ts = 7`. -/
theorem batch_payload_in_order_witness :
    oneBuffered.batch_data ≠ [] ∧
    batch_docs (batch_re_publish oneBuffered (tickUp 107 f20 f50 f19)).2
      = [[{ data := { time := 100, temp := f20, humid := f50, index := f19 }, ts := 7 }]] :=
  ⟨by decide,
   (batch_payload_in_order oneBuffered (tickUp 107 f20 f50 f19) (tickUp 108 f20 f50 f19)
      (by decide)).1⟩

/-- Three readings fail one after the other while every flush fails: all three are buffered in order. -/
theorem retry_buffer_invariant_witness :
    batch_ok_docs (runTrace (runState State.init
        [tickDown 100 f20 f50 f19, tickDown 101 f21 f50 f19]) [tickDown 102 f20 f50 f19]) = [] ∧
    (runState (runState State.init [tickDown 100 f20 f50 f19, tickDown 101 f21 f50 f19])
        [tickDown 102 f20 f50 f19]).batch_data
      = [⟨100, f20, f50, f19⟩, ⟨101, f21, f50, f19⟩, ⟨102, f20, f50, f19⟩] :=
  ⟨by decide,
   (retry_buffer_invariant [tickDown 100 f20 f50 f19, tickDown 101 f21 f50 f19]
      [tickDown 102 f20 f50 f19] (tickUp 105 f21 f50 f19) (by decide)).2.2.2.2.2⟩

/-- With one reading buffered, a tick with a valid sample flushes and a tick without does not. -/
theorem flush_after_valid_tick_witness :
    validSample (tickUp 103 f20 f50 f19) ∧ sensorFailed (tickUp 103 fNaN f50 f19) ∧
    (batch_docs (loop oneBuffered (tickUp 103 f20 f50 f19)).2).length = 1 ∧
    batch_docs (loop oneBuffered (tickUp 103 fNaN f50 f19)).2 = [] :=
  ⟨by decide, by decide,
   (flush_after_valid_tick oneBuffered (tickUp 103 f20 f50 f19) (tickUp 103 fNaN f50 f19)
      (by decide) (by decide)).2.2.2.1 (by decide),
   (flush_after_valid_tick oneBuffered (tickUp 103 f20 f50 f19) (tickUp 103 fNaN f50 f19)
      (by decide) (by decide)).2.2.2.2.1⟩

/-- C6 as stated fails: with a reading waiting in the buffer and the broker reachable, a
tick in which the sensor returns not-a-number makes no call of `mqtt.publish` at all, and
the reading is still in the buffer afterwards. -/
theorem sensor_failure_skips_flush :
    oneBuffered.batch_data = [⟨100, f20, f50, f19⟩] ∧
    sensorFailed (tickUp 103 fNaN f50 f19) ∧
    batch_docs (loop oneBuffered (tickUp 103 fNaN f50 f19)).2 = [] ∧
    publish_calls (loop oneBuffered (tickUp 103 fNaN f50 f19)).2 = [] ∧
    (loop oneBuffered (tickUp 103 fNaN f50 f19)).1.batch_data = [⟨100, f20, f50, f19⟩] := by
  decide

/-- Two ticks without a valid sample, then a changed sample: same state as without the two ticks. -/
theorem sensor_failure_tick_witness :
    sensorFailed (tickUp 103 fNaN f50 f19) ∧
    (∀ f ∈ [tickUp 101 fNaN f50 f19, tickUp 102 f20 fNaN f19], sensorFailed f) ∧
    runState oneBuffered
        ([tickUp 101 fNaN f50 f19, tickUp 102 f20 fNaN f19] ++ [tickUp 105 f21 f50 f19])
      = (loop oneBuffered (tickUp 105 f21 f50 f19)).1 :=
  ⟨by decide, by decide,
   (sensor_failure_tick oneBuffered (tickUp 103 fNaN f50 f19)
      [tickUp 101 fNaN f50 f19, tickUp 102 f20 fNaN f19] (tickUp 105 f21 f50 f19)
      (by decide) (by decide)).2.2.2.2.2.2⟩

/-- Samples (20.0, 50.0), (20.0, 50.0), (21.0, 50.0) with the broker reachable: two singles, no batch. -/
theorem singles_count_all_ok_witness :
    (∀ x ∈ [tickUp 100 f20 f50 f19, tickUp 101 f20 f50 f19, tickUp 102 f21 f50 f19],
      validSample x ∧ x.publish = true ∧ x.batch_publish = true) ∧
    publish_calls (runTrace State.init
        [tickUp 100 f20 f50 f19, tickUp 101 f20 f50 f19, tickUp 102 f21 f50 f19])
      = [(Topic.MQTT_PUBLISH, true), (Topic.MQTT_PUBLISH, true)] ∧
    batch_docs (runTrace State.init
        [tickUp 100 f20 f50 f19, tickUp 101 f20 f50 f19, tickUp 102 f21 f50 f19]) = [] :=
  ⟨by decide,
   (singles_count_all_ok
      [tickUp 100 f20 f50 f19, tickUp 101 f20 f50 f19, tickUp 102 f21 f50 f19] (by decide)).1,
   (singles_count_all_ok
      [tickUp 100 f20 f50 f19, tickUp 101 f20 f50 f19, tickUp 102 f21 f50 f19]
      (by decide)).2.2.2.2⟩

/-- C8 as stated fails: when the first sample is (0.0, 0.0), the startup value of the stored
sample, and every publish would succeed, the run makes no publish at all, while the count
of the claim is one. -/
theorem first_sample_equal_to_startup_value :
    (∀ x ∈ [tickUp 100 F32.zero F32.zero f19],
      validSample x ∧ x.publish = true ∧ x.batch_publish = true) ∧
    publish_calls (runTrace State.init [tickUp 100 F32.zero F32.zero f19]) = [] ∧
    (single_docs (runTrace State.init [tickUp 100 F32.zero F32.zero f19])).length = 0 ∧
    claimedSingles ([tickUp 100 F32.zero F32.zero f19].map sampleOf) = 1 := by
  decide

/-- Broker unreachable: `connected()`, one `connect`, one `publish`, in that order. -/
theorem reconnect_before_publish_witness :
    validSample (tickDown 101 f21 f50 f19) ∧
    changed oneBuffered (tickDown 101 f21 f50 f19) = true ∧
    oneBuffered.batch_data ≠ [] ∧
    mqtt_calls (loop_pipeline oneBuffered (tickDown 101 f21 f50 f19)).2.1
      = [Event.mqtt_connected false, Event.mqtt_connect false,
         Event.mqtt_publish Topic.MQTT_PUBLISH
           (JsonDocument.data { time := 101, temp := f21, humid := f50, index := f19 }) false] :=
  ⟨by decide, by decide, by decide,
   (reconnect_before_publish oneBuffered oneBuffered (tickDown 101 f21 f50 f19) false
      (by decide) (by decide) (by decide)).1⟩

/-- A reading stamped 100: flushed at clock 107 its age is 7; at clock 97 it is `2^32 - 3`. -/
theorem age_arithmetic_witness :
    List.Pairwise (fun a b => a ≤ b)
      (clock_reads (runTrace State.init ([tickDown 100 f20 f50 f19] ++ [tickUp 107 f20 f50 f19]))) ∧
    (∀ b ∈ batch_docs (loop (runState State.init [tickDown 100 f20 f50 f19])
        (tickUp 107 f20 f50 f19)).2, ∀ x ∈ b,
      x.data.time ≤ 107 ∧ x.ts = 107 - x.data.time) ∧
    ({ data := { time := 100, temp := f20, humid := f50, index := f19 },
       ts := 4294967293 } : JsonBatchEntry)
      ∈ oneBuffered.batch_data.map (batch_entry 97) :=
  ⟨by decide,
   (age_arithmetic [tickDown 100 f20 f50 f19] (tickUp 107 f20 f50 f19) oneBuffered
      (tickUp 97 f20 f50 f19) ⟨100, f20, f50, f19⟩ 3
      (by decide) (by decide) (by decide) (by decide) (by decide) (by decide)).2.1,
   (age_arithmetic [tickDown 100 f20 f50 f19] (tickUp 107 f20 f50 f19) oneBuffered
      (tickUp 97 f20 f50 f19) ⟨100, f20, f50, f19⟩ 3
      (by decide) (by decide) (by decide) (by decide) (by decide) (by decide)).2.2.2⟩

end AirQuality
